import Mathlib

/-!
Shallow embedding of the mruby scripting backend (player/mruby.c) of mpv:
the tagged host value format (mpv_node), the mruby-side value and GC-arena
state, the recursive value conversion mpv_to_mrb_root, the three
script-callable functions (_log, _property_list companions, _get_property),
the uncaught-fault reporter print_backtrace, and the load entry point
load_mruby.  Machine state that the C code threads implicitly (the GC arena
index and the diagnostic sink reachable through the script context) is made
an explicit state record; undefined behavior (dereferencing a NULL pointer)
is modelled as the absence of a normal result (Option.none).
-/

namespace Mruby

/-- Severity levels used by the diagnostic sink.  The bridge only ever logs
through MP_ERR, that is at error severity. -/
inductive MsgLevel where
  | error
deriving DecidableEq

/-- The interpreter-side machine state visible to this bridge: the GC arena
index (the count of objects currently registered as temporary GC roots) and
the diagnostic sink of the script context (most recent entry first). -/
structure MrbState where
  arena : Nat
  log : List (MsgLevel × String)
deriving DecidableEq

/-- MP_ERR: append one line to the script context diagnostic sink at error
severity. -/
def mp_err (st : MrbState) (msg : String) : MrbState :=
  { st with log := (MsgLevel.error, msg) :: st.log }

/-- mpv_node: the tagged host value format.  The double payload is carried
opaquely (no arithmetic is ever performed on it by this bridge), and
`unsupported` carries the numeric format tag of any format not handled by
the switch in mpv_to_mrb_root. -/
inductive MpvNode where
  | str (s : String)
  | flag (f : Int)
  | int64 (i : Int)
  | double (d : Int)
  | array (xs : List MpvNode)
  | map (xs : List (String × MpvNode))
  | unsupported (fmt : Int)

/-- mrb_value: the interpreter-native value representation. -/
inductive MrbValue where
  | nil
  | boolean (b : Bool)
  | fixnum (i : Int)
  | float (d : Int)
  | str (s : String)
  | ary (xs : List MrbValue)
  | hash (xs : List (MrbValue × MrbValue))

/-- mrb_nil_value(). -/
def mrb_nil_value : MrbValue := MrbValue.nil

/-- mrb_bool_value(b). -/
def mrb_bool_value (b : Bool) : MrbValue := MrbValue.boolean b

/-- mrb_fixnum_value(i). -/
def mrb_fixnum_value (i : Int) : MrbValue := MrbValue.fixnum i

/-- mrb_float_value(mrb, d): the payload passes through unchanged. -/
def mrb_float_value (d : Int) : MrbValue := MrbValue.float d

/-- mrb_str_new_cstr(mrb, s): allocates a heap object, which registers it in
the GC arena. -/
def mrb_str_new_cstr (st : MrbState) (s : String) : MrbValue × MrbState :=
  (MrbValue.str s, { st with arena := st.arena + 1 })

/-- mrb_ary_new(mrb): allocates the (initially empty) array heap object,
registering it in the GC arena.  The element list is assembled by the
caller, so only the state effect is returned here. -/
def mrb_ary_new (st : MrbState) : MrbState :=
  { st with arena := st.arena + 1 }

/-- mrb_hash_new(mrb): allocates the hash heap object, registering it in the
GC arena. -/
def mrb_hash_new (st : MrbState) : MrbState :=
  { st with arena := st.arena + 1 }

/-- mrb_gc_arena_save(mrb). -/
def mrb_gc_arena_save (st : MrbState) : Nat := st.arena

/-- mrb_gc_arena_restore(mrb, ai). -/
def mrb_gc_arena_restore (st : MrbState) (ai : Nat) : MrbState :=
  { st with arena := ai }

mutual

/-- mpv_to_mrb_root(mrb, node, root): recursive conversion from the tagged
host value format to interpreter-native values.  mrb_ary_push and
mrb_hash_set only link already-registered objects into the container, so
they have no arena effect; the container contents are assembled through
mpv_list / mpv_pairs, which thread the state exactly as the C loops do. -/
def mpv_to_mrb_root : MpvNode → Bool → MrbState → MrbValue × MrbState
  | MpvNode.str s, _, st => mrb_str_new_cstr st s
  | MpvNode.flag f, _, st => (mrb_bool_value (decide (f ≥ 0)), st)
  | MpvNode.int64 i, _, st => (mrb_fixnum_value i, st)
  | MpvNode.double d, _, st => (mrb_float_value d, st)
  | MpvNode.array xs, root, st =>
      let st1 := mrb_ary_new st
      let ai := mrb_gc_arena_save st1
      let res := mpv_list xs st1
      let st3 := if root then mrb_gc_arena_restore res.2 ai else res.2
      (MrbValue.ary res.1, st3)
  | MpvNode.map xs, root, st =>
      let st1 := mrb_hash_new st
      let ai := mrb_gc_arena_save st1
      let res := mpv_pairs xs st1
      let st3 := if root then mrb_gc_arena_restore res.2 ai else res.2
      (MrbValue.hash res.1, st3)
  | MpvNode.unsupported fmt, _, st =>
      (mrb_nil_value,
        mp_err st ("mpv_node mapping failed (format: " ++ toString fmt ++ ").\n"))

/-- The for-loop of the MPV_FORMAT_NODE_ARRAY case: converts each element
with root = false and appends it. -/
def mpv_list : List MpvNode → MrbState → List MrbValue × MrbState
  | [], st => ([], st)
  | x :: xs, st =>
      let item := mpv_to_mrb_root x false st
      let rest := mpv_list xs item.2
      (item.1 :: rest.1, rest.2)

/-- The for-loop of the MPV_FORMAT_NODE_MAP case: converts each key to a
native string, converts each value with root = false, and inserts the pair. -/
def mpv_pairs : List (String × MpvNode) → MrbState → List (MrbValue × MrbValue) × MrbState
  | [], st => ([], st)
  | (k, v) :: xs, st =>
      let key := mrb_str_new_cstr st k
      let item := mpv_to_mrb_root v false key.2
      let rest := mpv_pairs xs item.2
      ((key.1, item.1) :: rest.1, rest.2)

end

/-- The mpv_to_mrb wrapper: a root-level conversion. -/
def mpv_to_mrb (n : MpvNode) (st : MrbState) : MrbValue × MrbState :=
  mpv_to_mrb_root n true st

/-- _log(mrb, self): reads the string argument and writes it verbatim to the
diagnostic sink through MP_ERR, returning mrb_nil_value(). -/
def _log (message : String) (st : MrbState) : MrbValue × MrbState :=
  (mrb_nil_value, mp_err st message)

/-- get_node(mrb, value): reads the property name argument, queries
mpv_get_property for an MPV_FORMAT_NODE result, and on a negative status
logs one MP_ERR line built from the name and mpv_error_string(err).  The
host property system and mpv_error_string are external collaborators,
so they enter as function parameters: host gives the status and the node
written into *value, errstr gives the error description for a status. -/
def get_node (host : String → Int × MpvNode) (errstr : Int → String)
    (name : String) (st : MrbState) : Bool × MpvNode × MrbState :=
  let err := (host name).1
  let st1 :=
    if err < 0 then
      mp_err st ("get_property(\"" ++ name ++ "\") failed: " ++ errstr err ++ ".\n")
    else st
  (decide (err ≥ 0), (host name).2, st1)

/-- _get_property(mrb, self): on get_node success converts the node as a
root conversion through the mpv_to_mrb wrapper, otherwise returns
mrb_nil_value(). -/
def _get_property (host : String → Int × MpvNode) (errstr : Int → String)
    (name : String) (st : MrbState) : MrbValue × MrbState :=
  let r := get_node host errstr name st
  if r.1 then mpv_to_mrb r.2.1 r.2.2 else (mrb_nil_value, r.2.2)

/-- print_backtrace(mrb): when mrb has no pending exception it returns at
once; otherwise it formats the inspected exception, a backtrace header, and
one line per backtrace frame, then emits the whole string in one MP_ERR
call.  exc is None when mrb has no pending exception, and otherwise carries
the inspected exception string and the backtrace frame strings in order.
The arena save/restore pair around the formatting leaves the arena as it
was, so the arena field is unchanged. -/
def print_backtrace (exc : Option (String × List String)) (st : MrbState) : MrbState :=
  match exc with
  | none => st
  | some (excStr, bt) =>
      let err := ""
      let err := err ++ excStr ++ "\n"
      let err := err ++ "backtrace:\n"
      let err := bt.enum.foldl
        (fun acc p => acc ++ "\t[" ++ toString p.1 ++ "] => " ++ p.2 ++ "\n") err
      mp_err st err

/-- Observable events of one load_mruby call, in program order. -/
inductive LoadEvent where
  | openInterp
  | internCtxSym
  | setCtxConst
  | defineModule
  | runScript
  | logFault
  | closeInterp
  | freeCtx
deriving DecidableEq

/-- load_script(mrb, fname): resolves the path, opens the file, builds an
mrbc context and runs mrb_load_file_cxt, then calls print_backtrace and
frees the context and file.  fopen may return NULL; the code passes the
FILE pointer to mrb_load_file_cxt and fclose without a check, so a file
that cannot be opened leads to a NULL dereference: undefined behavior,
modelled as no normal return.  When the script raised an uncaught fault,
print_backtrace logs it, and load_script still returns normally. -/
def load_script (fileOpens scriptFaults : Bool) : Option (List LoadEvent) :=
  if !fileOpens then
    none
  else
    some ([LoadEvent.runScript] ++ if scriptFaults then [LoadEvent.logFault] else [])

/-- load_mruby(client, fname): sets r = -1, allocates and fills the script
context, opens the interpreter, interns the context symbol, installs the
context back-reference and the capability module, runs the null guard,
loads the script, sets r = 0, and at err_out closes the interpreter (when
ctx.state is non-null) and frees the context.  mrb_intern_cstr dereferences
the interpreter pointer before the `if (!mrb)` guard, so a NULL result of
mrb_open is undefined behavior before the guard can fire: the call has no
normal return (none).  On the path where mrb is non-null the guard branch
to err_out with r = -1 is textually present but cannot be taken. -/
def load_mruby (mrbOpenOk fileOpens scriptFaults : Bool) :
    Option (Int × List LoadEvent) :=
  if !mrbOpenOk then
    none
  else
    let tr := [LoadEvent.openInterp, LoadEvent.internCtxSym, LoadEvent.setCtxConst,
               LoadEvent.defineModule]
    if !mrbOpenOk then
      some (-1, tr ++ [LoadEvent.freeCtx])
    else
      match load_script fileOpens scriptFaults with
      | none => none
      | some ev => some (0, tr ++ ev ++ [LoadEvent.closeInterp, LoadEvent.freeCtx])

mutual

/-- Spec-side structural mirror of a tagged host value, written from the
words of the spec: scalars map to the corresponding native scalar, an Array
node to a native ordered collection of the converted elements in source
order, a Map node to a native associative structure whose pairs are the
converted (key, value) pairs in source order, with keys as native strings. -/
def mirror : MpvNode → MrbValue
  | MpvNode.str s => MrbValue.str s
  | MpvNode.flag f => MrbValue.boolean (decide (f ≥ 0))
  | MpvNode.int64 i => MrbValue.fixnum i
  | MpvNode.double d => MrbValue.float d
  | MpvNode.array xs => MrbValue.ary (mirrorList xs)
  | MpvNode.map xs => MrbValue.hash (mirrorPairs xs)
  | MpvNode.unsupported _ => MrbValue.nil

/-- Elementwise mirror of an Array node body. -/
def mirrorList : List MpvNode → List MrbValue
  | [] => []
  | x :: xs => mirror x :: mirrorList xs

/-- Pairwise mirror of a Map node body. -/
def mirrorPairs : List (String × MpvNode) → List (MrbValue × MrbValue)
  | [] => []
  | (k, v) :: xs => (MrbValue.str k, mirror v) :: mirrorPairs xs

end

mutual

/-- True when the tagged host value contains no Unsupported node. -/
def noUnsupported : MpvNode → Bool
  | MpvNode.str _ => true
  | MpvNode.flag _ => true
  | MpvNode.int64 _ => true
  | MpvNode.double _ => true
  | MpvNode.array xs => noUnsupportedList xs
  | MpvNode.map xs => noUnsupportedPairs xs
  | MpvNode.unsupported _ => false

/-- noUnsupported over an Array node body. -/
def noUnsupportedList : List MpvNode → Bool
  | [] => true
  | x :: xs => noUnsupported x && noUnsupportedList xs

/-- noUnsupported over a Map node body. -/
def noUnsupportedPairs : List (String × MpvNode) → Bool
  | [] => true
  | (_, v) :: xs => noUnsupported v && noUnsupportedPairs xs

end

mutual

/-- Number of interpreter heap objects (strings, arrays, hashes) the
conversion of a node allocates, hence the number of GC arena registrations
it performs. -/
def heapObjs : MpvNode → Nat
  | MpvNode.str _ => 1
  | MpvNode.flag _ => 0
  | MpvNode.int64 _ => 0
  | MpvNode.double _ => 0
  | MpvNode.array xs => 1 + heapObjsList xs
  | MpvNode.map xs => 1 + heapObjsPairs xs
  | MpvNode.unsupported _ => 0

/-- heapObjs over an Array node body. -/
def heapObjsList : List MpvNode → Nat
  | [] => 0
  | x :: xs => heapObjs x + heapObjsList xs

/-- heapObjs over a Map node body: one string object per key, plus the
objects of the converted value. -/
def heapObjsPairs : List (String × MpvNode) → Nat
  | [] => 0
  | (_, v) :: xs => 1 + heapObjs v + heapObjsPairs xs

end

/-- Spec-side shape of the backtrace section: one line per frame, frame i
rendered as a tab, the index in square brackets, an arrow, the frame text
and a newline, indices counted from i upward. -/
def btLinesFrom : Nat → List String → String
  | _, [] => ""
  | i, f :: fs => "\t[" ++ toString i ++ "] => " ++ f ++ "\n" ++ btLinesFrom (i + 1) fs

/-- A host property function on which every lookup fails with status -5
(property not found). -/
def hostMissing : String → Int × MpvNode := fun _ => (-5, MpvNode.int64 0)

/-- A host error description function. -/
def errstrDemo : Int → String := fun _ => "property not found"

/-- A concrete nested tagged host value free of Unsupported nodes. -/
def demoNode : MpvNode :=
  MpvNode.map
    [("a", MpvNode.array [MpvNode.str "x", MpvNode.int64 3, MpvNode.flag (-2)]),
     ("b", MpvNode.double 7)]

theorem foldl_bt_append (fs : List String) : ∀ (i : Nat) (acc : String),
    (List.enumFrom i fs).foldl
        (fun acc p => acc ++ "\t[" ++ toString p.1 ++ "] => " ++ p.2 ++ "\n") acc
      = acc ++ btLinesFrom i fs := by
  induction fs with
  | nil => intro i acc; simp [btLinesFrom]
  | cons f fs ih =>
      intro i acc
      simp only [List.enumFrom, List.foldl, btLinesFrom, ih]
      simp [String.append_assoc]

mutual

theorem convert_val_eq_mirror : ∀ (n : MpvNode), noUnsupported n = true →
    ∀ (root : Bool) (st : MrbState), (mpv_to_mrb_root n root st).1 = mirror n
  | MpvNode.str s, _, root, st => by
      simp [mpv_to_mrb_root, mirror, mrb_str_new_cstr]
  | MpvNode.flag f, _, root, st => by
      simp [mpv_to_mrb_root, mirror, mrb_bool_value]
  | MpvNode.int64 i, _, root, st => by
      simp [mpv_to_mrb_root, mirror, mrb_fixnum_value]
  | MpvNode.double d, _, root, st => by
      simp [mpv_to_mrb_root, mirror, mrb_float_value]
  | MpvNode.array xs, h, root, st => by
      have hxs : noUnsupportedList xs = true := by simpa [noUnsupported] using h
      simp [mpv_to_mrb_root, mirror, convert_list_eq_mirror xs hxs]
  | MpvNode.map xs, h, root, st => by
      have hxs : noUnsupportedPairs xs = true := by simpa [noUnsupported] using h
      simp [mpv_to_mrb_root, mirror, convert_pairs_eq_mirror xs hxs]
  | MpvNode.unsupported fmt, h, root, st => by
      simp [noUnsupported] at h

theorem convert_list_eq_mirror : ∀ (xs : List MpvNode), noUnsupportedList xs = true →
    ∀ (st : MrbState), (mpv_list xs st).1 = mirrorList xs
  | [], _, st => by simp [mpv_list, mirrorList]
  | x :: xs, h, st => by
      have hx : noUnsupported x = true := by
        have := h; simp [noUnsupportedList, Bool.and_eq_true] at this; exact this.1
      have hxs : noUnsupportedList xs = true := by
        have := h; simp [noUnsupportedList, Bool.and_eq_true] at this; exact this.2
      simp [mpv_list, mirrorList, convert_val_eq_mirror x hx,
        convert_list_eq_mirror xs hxs]

theorem convert_pairs_eq_mirror : ∀ (xs : List (String × MpvNode)),
    noUnsupportedPairs xs = true →
    ∀ (st : MrbState), (mpv_pairs xs st).1 = mirrorPairs xs
  | [], _, st => by simp [mpv_pairs, mirrorPairs]
  | (k, v) :: xs, h, st => by
      have hv : noUnsupported v = true := by
        have := h; simp [noUnsupportedPairs, Bool.and_eq_true] at this; exact this.1
      have hxs : noUnsupportedPairs xs = true := by
        have := h; simp [noUnsupportedPairs, Bool.and_eq_true] at this; exact this.2
      simp [mpv_pairs, mirrorPairs, mrb_str_new_cstr, convert_val_eq_mirror v hv,
        convert_pairs_eq_mirror xs hxs]

end

mutual

theorem arena_convert : ∀ (n : MpvNode) (st : MrbState),
    ((mpv_to_mrb_root n false st).2).arena = st.arena + heapObjs n
  | MpvNode.str s, st => by
      simp [mpv_to_mrb_root, heapObjs, mrb_str_new_cstr]
  | MpvNode.flag f, st => by
      simp [mpv_to_mrb_root, heapObjs]
  | MpvNode.int64 i, st => by
      simp [mpv_to_mrb_root, heapObjs]
  | MpvNode.double d, st => by
      simp [mpv_to_mrb_root, heapObjs]
  | MpvNode.array xs, st => by
      have h := arena_convert_list xs (mrb_ary_new st)
      simp [mrb_ary_new] at h
      simp [mpv_to_mrb_root, heapObjs, mrb_ary_new, h]
      omega
  | MpvNode.map xs, st => by
      have h := arena_convert_pairs xs (mrb_hash_new st)
      simp [mrb_hash_new] at h
      simp [mpv_to_mrb_root, heapObjs, mrb_hash_new, h]
      omega
  | MpvNode.unsupported fmt, st => by
      simp [mpv_to_mrb_root, heapObjs, mp_err]

theorem arena_convert_list : ∀ (xs : List MpvNode) (st : MrbState),
    ((mpv_list xs st).2).arena = st.arena + heapObjsList xs
  | [], st => by simp [mpv_list, heapObjsList]
  | x :: xs, st => by
      have hx := arena_convert x st
      have hxs := arena_convert_list xs (mpv_to_mrb_root x false st).2
      simp [mpv_list, heapObjsList, hx, hxs]
      omega

theorem arena_convert_pairs : ∀ (xs : List (String × MpvNode)) (st : MrbState),
    ((mpv_pairs xs st).2).arena = st.arena + heapObjsPairs xs
  | [], st => by simp [mpv_pairs, heapObjsPairs]
  | (k, v) :: xs, st => by
      have hv := arena_convert v (mrb_str_new_cstr st k).2
      have hxs := arena_convert_pairs xs (mpv_to_mrb_root v false (mrb_str_new_cstr st k).2).2
      simp [mrb_str_new_cstr] at hv hxs
      simp [mpv_pairs, heapObjsPairs, mrb_str_new_cstr, hv, hxs]
      omega

end

/-- Claim C10: for every string message, the script-callable log operation
writes the message verbatim to the diagnostic sink at error severity and
returns the no-value nil; no validation is performed, and the empty string
is a valid call that still emits an (empty) line. -/
theorem C10_log_verbatim : ∀ (message : String) (st : MrbState),
    (_log message st).1 = mrb_nil_value ∧
    ((_log message st).2).log = (MsgLevel.error, message) :: st.log ∧
    ((_log "" st).2).log = (MsgLevel.error, "") :: st.log := by
  intro message st
  exact ⟨rfl, rfl, rfl⟩

/-- Claim C6: a Boolean-flag node converts to native true exactly when the
underlying integer is at least 0; in particular 0 converts to true, -1 to
false and 5 to true. -/
theorem C6_flag_threshold : ∀ (f : Int) (root : Bool) (st : MrbState),
    ((mpv_to_mrb_root (MpvNode.flag f) root st).1 = mrb_bool_value true ↔ 0 ≤ f) ∧
    (mpv_to_mrb_root (MpvNode.flag 0) root st).1 = mrb_bool_value true ∧
    (mpv_to_mrb_root (MpvNode.flag (-1)) root st).1 = mrb_bool_value false ∧
    (mpv_to_mrb_root (MpvNode.flag 5) root st).1 = mrb_bool_value true := by
  intro f root st
  refine ⟨?_, ?_, ?_, ?_⟩ <;> simp [mpv_to_mrb_root, mrb_bool_value]

/-- Claim C5: a tagged host value node with an unrecognized format tag
converts to the canonical no-value nil, with exactly one diagnostic line
appended to the sink, and that line names the unrecognized format tag; the
conversion is total, so no interpreter-level fault is raised. -/
theorem C5_unsupported_format : ∀ (fmt : Int) (root : Bool) (st : MrbState),
    (mpv_to_mrb_root (MpvNode.unsupported fmt) root st).1 = mrb_nil_value ∧
    ((mpv_to_mrb_root (MpvNode.unsupported fmt) root st).2).log =
      (MsgLevel.error, "mpv_node mapping failed (format: " ++ toString fmt ++ ").\n")
        :: st.log ∧
    (∃ p q, "mpv_node mapping failed (format: " ++ toString fmt ++ ").\n"
        = p ++ toString fmt ++ q) := by
  intro fmt root st
  refine ⟨?_, ?_, ⟨"mpv_node mapping failed (format: ", ").\n", rfl⟩⟩
  · simp [mpv_to_mrb_root]
  · simp [mpv_to_mrb_root, mp_err]

/-- Claim C4: when the host property lookup reports a negative status,
_get_property logs exactly one diagnostic line that contains both the
property name and the host error description, and returns nil; the
operation is total, so no script-level fault is raised. -/
theorem C4_get_property_error (host : String → Int × MpvNode) (errstr : Int → String)
    (name : String) (st : MrbState) (h : (host name).1 < 0) :
    (_get_property host errstr name st).1 = mrb_nil_value ∧
    ((_get_property host errstr name st).2).log =
      (MsgLevel.error,
        "get_property(\"" ++ name ++ "\") failed: " ++ errstr (host name).1 ++ ".\n")
        :: st.log ∧
    (∃ p q, "get_property(\"" ++ name ++ "\") failed: " ++ errstr (host name).1 ++ ".\n"
        = p ++ name ++ q) ∧
    (∃ p q, "get_property(\"" ++ name ++ "\") failed: " ++ errstr (host name).1 ++ ".\n"
        = p ++ errstr (host name).1 ++ q) := by
  have hb : (decide ((host name).1 ≥ 0)) = false := decide_eq_false (by omega)
  refine ⟨?_, ?_,
    ⟨"get_property(\"", "\") failed: " ++ errstr (host name).1 ++ ".\n", ?_⟩,
    ⟨"get_property(\"" ++ name ++ "\") failed: ", ".\n", ?_⟩⟩
  · simp [_get_property, get_node, hb, h, mrb_nil_value]
  · simp [_get_property, get_node, hb, h, mp_err]
  · simp [String.append_assoc]
  · simp [String.append_assoc]

/-- Witness for C4: a concrete failing lookup, status -5 on the name
nonexistent.property, satisfies the hypothesis and yields nil. -/
theorem C4_witness :
    (hostMissing "nonexistent.property").1 < 0 ∧
    (_get_property hostMissing errstrDemo "nonexistent.property"
        ⟨0, []⟩).1 = mrb_nil_value :=
  ⟨by decide,
   (C4_get_property_error hostMissing errstrDemo "nonexistent.property" ⟨0, []⟩
      (by decide)).1⟩

/-- Claim C7: on an uncaught script-level fault the manager emits one
diagnostic consisting of the fault description, a backtrace header line,
and one line per stack frame of the form tab, index in brackets, arrow,
frame text, with indices from 0 in order; with zero frames only the
description and the header are emitted. -/
theorem C7_backtrace_format : ∀ (desc : String) (frames : List String) (st : MrbState),
    (print_backtrace (some (desc, frames)) st).log =
      (MsgLevel.error, desc ++ "\n" ++ "backtrace:\n" ++ btLinesFrom 0 frames)
        :: st.log ∧
    (print_backtrace (some (desc, [])) st).log =
      (MsgLevel.error, desc ++ "\n" ++ "backtrace:\n") :: st.log := by
  intro desc frames st
  constructor
  · simp only [print_backtrace, List.enum]
    rw [foldl_bt_append]
    simp [mp_err, String.append_assoc]
  · simp [print_backtrace, mp_err, btLinesFrom, String.append_assoc]

/-- Claim C3: the interpreter pointer is dereferenced before the null guard
(modelled as: a NULL mrb_open result yields no normal return), so whenever
load_mruby returns normally the guard branch was not taken and the returned
code is 0, never -1. -/
theorem C3_normal_return_is_zero : ∀ (mrbOpenOk fileOpens scriptFaults : Bool)
    (r : Int) (tr : List LoadEvent),
    load_mruby mrbOpenOk fileOpens scriptFaults = some (r, tr) → r = 0 := by
  intro mo fo sf r tr h
  cases mo
  · simp [load_mruby] at h
  · cases fo
    · simp [load_mruby, load_script] at h
    · cases sf <;> simp [load_mruby, load_script] at h <;> omega

/-- Witness for C3: a successful load returns normally with code 0. -/
theorem C3_witness :
    load_mruby true true false =
      some (0, [LoadEvent.openInterp, LoadEvent.internCtxSym, LoadEvent.setCtxConst,
        LoadEvent.defineModule, LoadEvent.runScript, LoadEvent.closeInterp,
        LoadEvent.freeCtx]) ∧ (0 : Int) = 0 :=
  ⟨rfl,
   C3_normal_return_is_zero true true false 0
     [LoadEvent.openInterp, LoadEvent.internCtxSym, LoadEvent.setCtxConst,
      LoadEvent.defineModule, LoadEvent.runScript, LoadEvent.closeInterp,
      LoadEvent.freeCtx] rfl⟩

/-- Claim C9: on every path of load_mruby that returns, the interpreter is
closed strictly before the script context is freed: the event trace ends
with closeInterp immediately followed by freeCtx. -/
theorem C9_close_before_free : ∀ (mrbOpenOk fileOpens scriptFaults : Bool)
    (r : Int) (tr : List LoadEvent),
    load_mruby mrbOpenOk fileOpens scriptFaults = some (r, tr) →
    ∃ pre, tr = pre ++ [LoadEvent.closeInterp, LoadEvent.freeCtx] := by
  intro mo fo sf r tr h
  cases mo
  · simp [load_mruby] at h
  · cases fo
    · simp [load_mruby, load_script] at h
    · cases sf <;> simp [load_mruby, load_script] at h
      · obtain ⟨-, h2⟩ := h
        subst h2
        exact ⟨[LoadEvent.openInterp, LoadEvent.internCtxSym, LoadEvent.setCtxConst,
          LoadEvent.defineModule, LoadEvent.runScript], rfl⟩
      · obtain ⟨-, h2⟩ := h
        subst h2
        exact ⟨[LoadEvent.openInterp, LoadEvent.internCtxSym, LoadEvent.setCtxConst,
          LoadEvent.defineModule, LoadEvent.runScript, LoadEvent.logFault], rfl⟩

/-- Witness for C9: on the successful load the trace ends with closeInterp
then freeCtx. -/
theorem C9_witness :
    ∃ pre, [LoadEvent.openInterp, LoadEvent.internCtxSym, LoadEvent.setCtxConst,
      LoadEvent.defineModule, LoadEvent.runScript, LoadEvent.closeInterp,
      LoadEvent.freeCtx] = pre ++ [LoadEvent.closeInterp, LoadEvent.freeCtx] :=
  C9_close_before_free true true false 0
    [LoadEvent.openInterp, LoadEvent.internCtxSym, LoadEvent.setCtxConst,
     LoadEvent.defineModule, LoadEvent.runScript, LoadEvent.closeInterp,
     LoadEvent.freeCtx] rfl

/-- Claim C1, evaluated at the failing input: a script that raises an
uncaught fault has the fault logged, yet load_mruby still returns 0, not a
negative code. -/
theorem C1_fault_load_returns_zero :
    load_mruby true true true =
      some (0, [LoadEvent.openInterp, LoadEvent.internCtxSym, LoadEvent.setCtxConst,
        LoadEvent.defineModule, LoadEvent.runScript, LoadEvent.logFault,
        LoadEvent.closeInterp, LoadEvent.freeCtx]) := rfl

/-- Counterexample for C2: on the array node [str x] starting at arena 0,
the claim predicts that the nested (root = false) call restores the arena
to its save point 1 and that the root call leaves both registrations, hence
arena 2.  The code does the opposite: the nested call leaves arena 2 and
the root call restores to 1. -/
theorem C2_counterexample :
    ¬ (((mpv_to_mrb_root (MpvNode.array [MpvNode.str "x"]) false ⟨0, []⟩).2).arena = 1 ∧
       ((mpv_to_mrb_root (MpvNode.array [MpvNode.str "x"]) true ⟨0, []⟩).2).arena = 2) := by
  intro h
  obtain ⟨h1, h2⟩ := h
  simp [mpv_to_mrb_root, mpv_list, mrb_str_new_cstr, mrb_ary_new, mrb_gc_arena_save,
    mrb_gc_arena_restore] at h1

/-- Amended C2: a root-level (root = true) conversion of an Array or Map
node restores the arena to the index saved right after the container was
created, so only the container registration remains; a nested (root =
false) recursive call does not restore the arena, leaving one registration
per heap object created in its subtree, to be released by the enclosing
root-level call. -/
theorem C2_amended_arena_discipline : ∀ (xs : List MpvNode)
    (ys : List (String × MpvNode)) (st : MrbState),
    ((mpv_to_mrb_root (MpvNode.array xs) true st).2).arena = st.arena + 1 ∧
    ((mpv_to_mrb_root (MpvNode.map ys) true st).2).arena = st.arena + 1 ∧
    ((mpv_to_mrb_root (MpvNode.array xs) false st).2).arena
      = st.arena + 1 + heapObjsList xs ∧
    ((mpv_to_mrb_root (MpvNode.map ys) false st).2).arena
      = st.arena + 1 + heapObjsPairs ys := by
  intro xs ys st
  refine ⟨?_, ?_, ?_, ?_⟩
  · simp [mpv_to_mrb_root, mrb_ary_new, mrb_gc_arena_save, mrb_gc_arena_restore]
  · simp [mpv_to_mrb_root, mrb_hash_new, mrb_gc_arena_save, mrb_gc_arena_restore]
  · have h := arena_convert_list xs (mrb_ary_new st)
    simp [mrb_ary_new] at h
    simp [mpv_to_mrb_root, mrb_ary_new, h]
  · have h := arena_convert_pairs ys (mrb_hash_new st)
    simp [mrb_hash_new] at h
    simp [mpv_to_mrb_root, mrb_hash_new, h]

/-- Claim C8: for every tagged host value free of Unsupported nodes, the
conversion result structurally mirrors the source at any nesting depth:
scalars map to the corresponding native scalar, Array nodes to a native
ordered collection of the converted elements in source order, and Map
nodes to a native associative structure of (native string key, converted
value) pairs in source order, as captured by the spec-side mirror
definition. -/
theorem C8_structural_mirror : ∀ (n : MpvNode), noUnsupported n = true →
    ∀ (root : Bool) (st : MrbState),
    (mpv_to_mrb_root n root st).1 = mirror n :=
  convert_val_eq_mirror

/-- Witness for C8: a concrete nested map satisfies the hypothesis and
converts to its mirror. -/
theorem C8_witness :
    noUnsupported demoNode = true ∧
    (mpv_to_mrb_root demoNode true ⟨0, []⟩).1 = mirror demoNode :=
  ⟨by simp [demoNode, noUnsupported, noUnsupportedList, noUnsupportedPairs],
   C8_structural_mirror demoNode
     (by simp [demoNode, noUnsupported, noUnsupportedList, noUnsupportedPairs])
     true ⟨0, []⟩⟩

end Mruby
